import Mathlib

/-!
Shallow embedding of the tars_bot repository (src/bot2.0.py and
src/bot.py): a Telegram relay bot with per-user rate limiting, bounded
conversation history and inactivity expiry.

Modelling conventions:
  - Timestamps (Python floats from time.time()) are rationals.
  - User ids are naturals.
  - The module-level defaultdicts USER_REQUEST_COUNT, LAST_REQUEST_TIME,
    CONVERSATIONS, LAST_ACTIVITY become total functions from user id,
    with the defaultdict defaults (0, 0.0, [], 0.0) as the values of the
    initial state.  Python's `user_id in CONVERSATIONS` tests dictionary
    membership, which an earlier subscript access creates, so membership
    of CONVERSATIONS is tracked separately as a Boolean map (the only
    dict whose membership the code ever tests, in `reset`).  Subscript
    access in bot2.0.py's auto-reset condition happens only when the
    left conjunct is true, because Python's `and` short-circuits; the
    model reproduces this.
  - The external backend call is a parameter: `some reply` means
    client.chat.completions.create returned `reply` as the message
    content, `none` means it raised (the `except` branch runs).
  - Replies sent to the chat are modelled as result fields: the decision
    (denied or not), whether the auto-reset notice was sent, the list of
    turns sent to the backend (without the fixed system turn the
    dispatcher prepends), the displayed chunks of the cleaned reply, and
    whether the error message was sent.
-/

namespace TarsBot

set_option maxRecDepth 10000
set_option maxHeartbeats 2000000

/-- Role tag of one conversation turn (the "role" key of the message
dicts appended to CONVERSATIONS in bot2.0.py). -/
inductive Role where
  | user
  | assistant
deriving DecidableEq

/-- One conversation turn: a role/content pair, as stored in the
CONVERSATIONS lists of bot2.0.py. -/
structure Turn where
  role : Role
  content : String
deriving DecidableEq

/-- REQUEST_LIMIT = 3 in bot.py and bot2.0.py. -/
def REQUEST_LIMIT : Nat := 3

/-- INACTIVITY_TIMEOUT = 1800 seconds in bot2.0.py. -/
def INACTIVITY_TIMEOUT : ℚ := 1800

/-- MAX_TURNS: the history trim bound, the literal 20 of
bot2.0.py's `if len(CONVERSATIONS[user_id]) > 20`. -/
def MAX_TURNS : Nat := 20

/-- The per-user rate-limiting state: LAST_REQUEST_TIME[u] and
USER_REQUEST_COUNT[u]. -/
structure RateWindow where
  windowStart : ℚ
  count : Nat
deriving DecidableEq

/-- The rate-limiting block shared verbatim by bot.py (lines 49-57) and
bot2.0.py (lines 76-84):

    if current_time - LAST_REQUEST_TIME[user_id] < 60:
        if USER_REQUEST_COUNT[user_id] >= REQUEST_LIMIT:
            ... return            # denied, nothing written
    else:
        USER_REQUEST_COUNT[user_id] = 0
        LAST_REQUEST_TIME[user_id] = current_time
    USER_REQUEST_COUNT[user_id] += 1

Returns the decision (true = allowed) and the updated window. -/
def admitCheck (w : RateWindow) (now : ℚ) : Bool × RateWindow :=
  if now - w.windowStart < 60 ∧ REQUEST_LIMIT ≤ w.count then
    (false, w)
  else
    let w1 := if now - w.windowStart < 60 then w else RateWindow.mk now 0
    (true, RateWindow.mk w1.windowStart (w1.count + 1))

/-- Folds `admitCheck` over a list of arrival times, collecting the decisions
and the final window. -/
def admitSeq (w : RateWindow) : List ℚ → List Bool × RateWindow
  | [] => ([], w)
  | t :: ts =>
    let a := admitCheck w t
    let r := admitSeq a.snd ts
    (a.fst :: r.fst, r.snd)

/-- The whole module-level mutable state of bot2.0.py. -/
structure BotState where
  userRequestCount : Nat → Nat
  lastRequestTime : Nat → ℚ
  conversations : Nat → List Turn
  conversationsMem : Nat → Bool
  lastActivity : Nat → ℚ

/-- The state at interpreter start: every defaultdict is empty, so every
lookup yields the default (0, 0.0, [], 0.0) and no key is a member. -/
def initState : BotState where
  userRequestCount := fun _ => 0
  lastRequestTime := fun _ => 0
  conversations := fun _ => []
  conversationsMem := fun _ => false
  lastActivity := fun _ => 0

/-- Pointwise update of a per-user map. -/
def updFn {α : Type} (f : Nat → α) (k : Nat) (v : α) : Nat → α :=
  fun n => if n = k then v else f n

/-- Python's single-pass, left-to-right, non-overlapping replacement of
the pattern `t :: ts` by `rep` in a character list, as performed by
str.replace.  After a match the scan resumes after the matched
occurrence. -/
def replaceAux (t : Char) (ts rep : List Char) : List Char → List Char
  | [] => []
  | c :: rest =>
    if c = t ∧ ts.isPrefixOf rest = true then
      rep ++ replaceAux t ts rep (rest.drop ts.length)
    else
      c :: replaceAux t ts rep rest
termination_by l => l.length
decreasing_by
  · simp only [List.length_drop, List.length_cons]
    omega
  · simp only [List.length_cons]
    omega

/-- Python str.replace(target, rep) for a non-empty target (the only
case the sources use); an empty target is returned unchanged. -/
def pyReplace (s target rep : String) : String :=
  match target.data with
  | [] => s
  | t :: ts => String.mk (replaceAux t ts rep.data s.data)

/-- Line 110 of bot2.0.py (line 83 of bot.py):
bot_response.replace("\x5c\x5cboxed\x7b", "").replace("\x7d", "")
(in Python source the first pattern is the seven characters backslash,
b, o, x, e, d, open brace). -/
def cleanResponse (s : String) : String :=
  pyReplace (pyReplace s "\\boxed\x7b" "") "\x7d" ""

/-- The chunking loop `for i in range(0, len(clean_response), 4096)`:
successive slices of at most 4096 characters; an empty string yields no
chunks at all (the loop body never runs). -/
def chunkChars : List Char → List String
  | [] => []
  | c :: rest => String.mk ((c :: rest).take 4096) :: chunkChars ((c :: rest).drop 4096)
termination_by l => l.length
decreasing_by
  simp only [List.length_drop, List.length_cons]
  omega

/-- Chunking of a string, as sent to the chat one reply_text per chunk. -/
def chunkText (s : String) : List String := chunkChars s.data

/-- The history trim of bot2.0.py (lines 119-121):

    if len(CONVERSATIONS[user_id]) > 20:
        CONVERSATIONS[user_id] = CONVERSATIONS[user_id][-20:]

keeps the last 20 entries when the list is longer than 20. -/
def trimHistory (l : List Turn) : List Turn :=
  if MAX_TURNS < l.length then l.drop (l.length - MAX_TURNS) else l

/-- Everything observable about one handle_message call: the state after
the call and what was sent to the chat and to the backend. -/
structure HandleResult where
  state : BotState
  denied : Bool
  autoResetNotice : Bool
  sentContext : Option (List Turn)
  displayed : List String
  errored : Bool

/-- handle_message of bot2.0.py (lines 62-133), for one inbound text
`msg` from user `uid` arriving at `now`, with `backend` the outcome of
the completion call (`none` = the call raised).  Order of effects as in
the source: auto-reset check (short-circuit access of CONVERSATIONS),
unconditional LAST_ACTIVITY update, rate limiting with early return on
denial, user-turn append, backend call, raw-reply append, cleaning,
chunked display, trim to the last 20 turns. -/
def handle_message (st : BotState) (uid : Nat) (msg : String) (now : ℚ)
    (backend : Option String) : HandleResult :=
  let gapBig : Bool := decide (INACTIVITY_TIMEOUT < now - st.lastActivity uid)
  let auto : Bool := gapBig && decide (st.conversations uid ≠ [])
  let st1 : BotState :=
    { st with
      conversations :=
        if auto then updFn st.conversations uid [] else st.conversations
      conversationsMem :=
        if gapBig then updFn st.conversationsMem uid true else st.conversationsMem
      lastActivity := updFn st.lastActivity uid now }
  let a := admitCheck (RateWindow.mk (st1.lastRequestTime uid) (st1.userRequestCount uid)) now
  if a.fst = false then
    { state := st1, denied := true, autoResetNotice := auto,
      sentContext := none, displayed := [], errored := false }
  else
    let st2 : BotState :=
      { st1 with
        userRequestCount := updFn st1.userRequestCount uid a.snd.count
        lastRequestTime := updFn st1.lastRequestTime uid a.snd.windowStart }
    let conv2 := st2.conversations uid ++ [Turn.mk Role.user msg]
    let st3 : BotState :=
      { st2 with
        conversations := updFn st2.conversations uid conv2
        conversationsMem := updFn st2.conversationsMem uid true }
    match backend with
    | none =>
      { state := st3, denied := false, autoResetNotice := auto,
        sentContext := some conv2, displayed := [], errored := true }
    | some reply =>
      let conv3 := conv2 ++ [Turn.mk Role.assistant reply]
      let conv4 := trimHistory conv3
      let st4 : BotState :=
        { st3 with conversations := updFn st3.conversations uid conv4 }
      { state := st4, denied := false, autoResetNotice := auto,
        sentContext := some conv2, displayed := chunkText (cleanResponse reply),
        errored := false }

/-- The /reset command handler of bot2.0.py (lines 52-60): if the user
has a CONVERSATIONS entry, clear it and refresh LAST_ACTIVITY and reply
with the success notice (true); otherwise reply that nothing was found
(false), touching nothing. -/
def reset (st : BotState) (uid : Nat) (now : ℚ) : BotState × Bool :=
  if st.conversationsMem uid then
    ({ st with
        conversations := updFn st.conversations uid []
        lastActivity := updFn st.lastActivity uid now }, true)
  else
    (st, false)

/-- A reachable state used to witness C5: one completed exchange of
user 0 at time 0. -/
def C5exState : BotState := (handle_message initState 0 "old" 0 (some "r")).state

/-- A run of messages from user 0 spaced 60 seconds apart whose backend
call always raises: every message is admitted, appends its user turn,
and — because the trim only runs in the success path — is never
trimmed. -/
def failRun : Nat → BotState × ℚ
  | 0 => (initState, 0)
  | n + 1 =>
    let p := failRun n
    ((handle_message p.1 0 "m" p.2 none).state, p.2 + 60)

/-- A reachable state for C3: three messages of user 0 at times 0, 1
and 2 exhaust the quota of the window started at time 0 and leave
lastActivity at 2. -/
def C3exState : BotState :=
  (handle_message (handle_message (handle_message initState
    0 "m1" 0 none).state 0 "m2" 1 none).state 0 "m3" 2 none).state

/-- A reachable state for C6: user 0 sends one message (which creates
the CONVERSATIONS entry) and then resets at time 5, leaving an entry
whose history is empty and lastActivity 5. -/
def C6exState : BotState :=
  (reset (handle_message initState 0 "hi" 0 none).state 0 5).1

/-- Eleven successful request/reply exchanges of user 0, spaced 100
seconds apart so that each message is admitted and no inactivity
auto-reset fires: message k carries text `u k` and is answered by
`a k`. -/
def runPairs (u a : Nat → String) : Nat → BotState × ℚ
  | 0 => (initState, 0)
  | n + 1 =>
    let p := runPairs u a n
    ((handle_message p.1 0 (u n) p.2 (some (a n))).state, p.2 + 100)

/-- The trimmed history never exceeds MAX_TURNS entries. -/
theorem trimHistory_length_le (l : List Turn) :
    (trimHistory l).length ≤ MAX_TURNS := by
  unfold trimHistory
  split
  · simp only [List.length_drop]
    omega
  · next h => omega

/-- Trimming drops only from the front: the result is a suffix. -/
theorem trimHistory_suffix (l : List Turn) : trimHistory l <:+ l := by
  unfold trimHistory
  split
  · exact List.drop_suffix _ _
  · exact List.suffix_refl _

/-- Trimming a history that ends in a given turn keeps that turn at the
end. -/
theorem trimHistory_last (l : List Turn) (x : Turn) :
    ∃ pre, trimHistory (l ++ [x]) = pre ++ [x] := by
  unfold trimHistory
  split
  · refine ⟨l.drop ((l ++ [x]).length - MAX_TURNS), ?_⟩
    refine List.drop_append_of_le_length ?_
    simp only [List.length_append, List.length_cons, List.length_nil, MAX_TURNS]
    omega
  · exact ⟨l, rfl⟩

/-- C1: for every user and every sequence of admitted messages whose
timestamps all lie within 60 seconds of the window start, the first
three admitCheck decisions are Allowed and the fourth is Denied; a Denied
decision does not increment the count and does not reset the window, so
the per-user request count never exceeds REQUEST_LIMIT (3). -/
theorem C1_rate_limit_three_then_denied (w0 t1 t2 t3 t4 : ℚ)
    (h1 : w0 ≤ t1 ∧ t1 - w0 < 60) (h2 : w0 ≤ t2 ∧ t2 - w0 < 60)
    (h3 : w0 ≤ t3 ∧ t3 - w0 < 60) (h4 : w0 ≤ t4 ∧ t4 - w0 < 60) :
    admitSeq (RateWindow.mk w0 0) [t1, t2, t3, t4] =
      ([true, true, true, false], RateWindow.mk w0 3) ∧
    ∀ (w : RateWindow) (now : ℚ), w.count ≤ REQUEST_LIMIT →
      (admitCheck w now).snd.count ≤ REQUEST_LIMIT ∧
      ((admitCheck w now).fst = false → (admitCheck w now).snd = w) := by
  constructor
  · simp [admitSeq, admitCheck, REQUEST_LIMIT, h1.2, h2.2, h3.2, h4.2]
  · intro w now hc
    unfold admitCheck
    split
    · simpa using hc
    · next h =>
      rw [not_and_or] at h
      constructor
      · by_cases hw : now - w.windowStart < 60
        · rcases h with h | h
          · exact absurd hw h
          · simp only [hw, if_pos]
            omega
        · simp [hw, REQUEST_LIMIT]
      · intro hfalse
        simp at hfalse

/-- Witness for C1 at the concrete window start 0 and times 1, 2, 3, 4. -/
theorem C1_witness :
    admitSeq (RateWindow.mk 0 0) [1, 2, 3, 4] =
      ([true, true, true, false], RateWindow.mk 0 3) :=
  (C1_rate_limit_three_then_denied 0 1 2 3 4 (by norm_num) (by norm_num)
    (by norm_num) (by norm_num)).1

/-- C9: once at least 60 seconds have elapsed since the user's window
start, the next admitCheck call returns Allowed, starts a fresh window at the
current time, and leaves the visible count at 1; the boundary is
inclusive, so a call arriving exactly 60 seconds after the window start
starts a fresh window. -/
theorem C9_window_reset_after_sixty (w : RateWindow) (now : ℚ)
    (h : 60 ≤ now - w.windowStart) :
    admitCheck w now = (true, RateWindow.mk now 1) := by
  have hlt : ¬ (now - w.windowStart < 60) := not_lt.mpr h
  simp [admitCheck, hlt]

/-- Witness for C9 exactly at the 60-second boundary, with the quota
already exhausted (count 3). -/
theorem C9_witness : admitCheck (RateWindow.mk 0 3) 60 = (true, RateWindow.mk 60 1) :=
  C9_window_reset_after_sixty (RateWindow.mk 0 3) 60 (by norm_num)

/-- C7: for every message whose backend call fails (raises), no
assistant turn is appended to the user's history for that exchange —
the history afterwards is exactly the prior history plus the one user
turn — and the rate-limit count already incremented by admitCheck for that
message is not rolled back: the stored count and window start equal the
post-admitCheck values (stated here for messages that are admitted and do
not trigger the inactivity auto-reset). -/
theorem C7_backend_failure_no_reply_no_rollback (st : BotState) (uid : Nat)
    (msg : String) (now : ℚ)
    (hgap : now - st.lastActivity uid ≤ INACTIVITY_TIMEOUT)
    (hadm : (admitCheck (RateWindow.mk (st.lastRequestTime uid)
      (st.userRequestCount uid)) now).fst = true) :
    (handle_message st uid msg now none).errored = true ∧
    (handle_message st uid msg now none).state.conversations uid =
      st.conversations uid ++ [Turn.mk Role.user msg] ∧
    (handle_message st uid msg now none).state.userRequestCount uid =
      (admitCheck (RateWindow.mk (st.lastRequestTime uid)
        (st.userRequestCount uid)) now).snd.count ∧
    (handle_message st uid msg now none).state.lastRequestTime uid =
      (admitCheck (RateWindow.mk (st.lastRequestTime uid)
        (st.userRequestCount uid)) now).snd.windowStart := by
  have hg : decide (INACTIVITY_TIMEOUT < now - st.lastActivity uid) = false := by
    simp [not_lt.mpr hgap]
  unfold handle_message
  simp [hg, hadm, updFn]

/-- Witness for C7: the very first message of a fresh user, failing at
the backend, leaves one user turn and a consumed quota of 1. -/
theorem C7_witness :
    (handle_message initState 0 "hi" 0 none).errored = true ∧
    (handle_message initState 0 "hi" 0 none).state.conversations 0 =
      initState.conversations 0 ++ [Turn.mk Role.user "hi"] ∧
    (handle_message initState 0 "hi" 0 none).state.userRequestCount 0 =
      (admitCheck (RateWindow.mk (initState.lastRequestTime 0)
        (initState.userRequestCount 0)) 0).snd.count ∧
    (handle_message initState 0 "hi" 0 none).state.lastRequestTime 0 =
      (admitCheck (RateWindow.mk (initState.lastRequestTime 0)
        (initState.userRequestCount 0)) 0).snd.windowStart :=
  C7_backend_failure_no_reply_no_rollback initState 0 "hi" 0 (by norm_num [initState, INACTIVITY_TIMEOUT])
    (by norm_num [initState, admitCheck, REQUEST_LIMIT])

/-- C5: for every user whose history is non-empty, if the gap between
the current message's arrival time and the stored lastActivity strictly
exceeds INACTIVITY_TIMEOUT (1800s), the history is cleared before the
new user turn is appended, the auto-reset notice is reported, and the
context sent to the backend contains only the new message; if the
history is empty or the gap does not exceed 1800s, no auto-reset
occurs.  The hypothesis lastRequestTime ≤ lastActivity holds in every
reachable state because every message writes lastActivity. -/
theorem C5_inactivity_gap_resets_history (st : BotState) (uid : Nat)
    (msg : String) (now : ℚ) (backend : Option String)
    (hlr : st.lastRequestTime uid ≤ st.lastActivity uid) :
    ((st.conversations uid ≠ [] ∧ INACTIVITY_TIMEOUT < now - st.lastActivity uid) →
      (handle_message st uid msg now backend).autoResetNotice = true ∧
      (handle_message st uid msg now backend).denied = false ∧
      (handle_message st uid msg now backend).sentContext =
        some [Turn.mk Role.user msg]) ∧
    ((st.conversations uid = [] ∨ now - st.lastActivity uid ≤ INACTIVITY_TIMEOUT) →
      (handle_message st uid msg now backend).autoResetNotice = false) := by
  constructor
  · rintro ⟨hne, hgap⟩
    have hg : decide (INACTIVITY_TIMEOUT < now - st.lastActivity uid) = true := by
      simp [hgap]
    have hne2 : decide (st.conversations uid ≠ []) = true := by simp [hne]
    have hnw : ¬ (now - st.lastRequestTime uid < 60) := by
      rw [not_lt]
      have h60 : (60 : ℚ) ≤ INACTIVITY_TIMEOUT := by norm_num [INACTIVITY_TIMEOUT]
      linarith
    cases backend <;>
      simp [handle_message, hg, hne2, admitCheck, hnw, updFn]
  · intro h
    have hg : (decide (INACTIVITY_TIMEOUT < now - st.lastActivity uid) &&
        decide (st.conversations uid ≠ [])) = false := by
      rcases h with h | h
      · simp [h]
      · simp [not_lt.mpr h]
    cases backend <;> (simp only [handle_message, hg]; split <;> rfl)

/-- Witness for C5 at a message arriving 2000 seconds after the last
activity of a user with a two-turn history. -/
theorem C5_witness :
    (handle_message C5exState 0 "new" 2000 (some "ok")).autoResetNotice = true ∧
    (handle_message C5exState 0 "new" 2000 (some "ok")).denied = false ∧
    (handle_message C5exState 0 "new" 2000 (some "ok")).sentContext =
      some [Turn.mk Role.user "new"] :=
  (C5_inactivity_gap_resets_history C5exState 0 "new" 2000 (some "ok")
    (by norm_num [C5exState, handle_message, trimHistory, initState, admitCheck, updFn,
      INACTIVITY_TIMEOUT, REQUEST_LIMIT])).1
    ⟨by norm_num [C5exState, handle_message, trimHistory, initState, admitCheck, updFn,
        INACTIVITY_TIMEOUT, REQUEST_LIMIT, MAX_TURNS, List.cons_ne_nil],
      by norm_num [C5exState, handle_message, trimHistory, initState, admitCheck, updFn,
        INACTIVITY_TIMEOUT, REQUEST_LIMIT]⟩

/-- Counterexample to C2: in the state reached from the initial state
by 21 backend-failing messages, the history of user 0 holds 21 turns,
strictly more than MAX_TURNS (20) — the length bound does not hold
after the user-turn append, and nothing ever shrinks it while the
backend keeps failing. -/
theorem C2_counterexample_failed_calls_overflow_history :
    ((failRun 21).1.conversations 0).length = 21 ∧
    MAX_TURNS < ((failRun 21).1.conversations 0).length := by
  norm_num [failRun, handle_message, trimHistory, initState, admitCheck, updFn,
    INACTIVITY_TIMEOUT, REQUEST_LIMIT, MAX_TURNS]

/-- C2 amended: the MAX_TURNS (20) bound holds after the trim at the
end of every successful exchange — for any prior state, even one whose
history is already over the bound — and the resulting history is a
suffix of the prior history extended by the new user/assistant pair, so
only the oldest turns are dropped.  After the user-turn append alone
(a message whose backend call fails) the bound can be exceeded. -/
theorem C2_amended_history_bounded_after_success (st : BotState) (uid : Nat)
    (msg : String) (now : ℚ) (reply : String)
    (hgap : now - st.lastActivity uid ≤ INACTIVITY_TIMEOUT)
    (hok : (handle_message st uid msg now (some reply)).denied = false) :
    ((handle_message st uid msg now (some reply)).state.conversations uid).length
      ≤ MAX_TURNS ∧
    ((handle_message st uid msg now (some reply)).state.conversations uid) <:+
      (st.conversations uid ++ [Turn.mk Role.user msg, Turn.mk Role.assistant reply]) := by
  have hg : decide (INACTIVITY_TIMEOUT < now - st.lastActivity uid) = false := by
    simp [not_lt.mpr hgap]
  by_cases hadm : (admitCheck (RateWindow.mk (st.lastRequestTime uid)
      (st.userRequestCount uid)) now).fst = true
  · unfold handle_message
    simp only [hg, Bool.false_and, hadm, Bool.true_eq_false, if_false, updFn,
      if_pos, if_true]
    simp only [if_neg (by simp : ¬ (false : Bool) = true)]
    refine ⟨trimHistory_length_le _, ?_⟩
    refine (trimHistory_suffix _).trans ?_
    simp [List.append_assoc]
  · exfalso
    have hf : (admitCheck (RateWindow.mk (st.lastRequestTime uid)
        (st.userRequestCount uid)) now).fst = false := by
      simpa using hadm
    rw [handle_message] at hok
    simp only [hg, Bool.false_and, hf, if_pos, if_true] at hok
    simp at hok

/-- Witness for the amended C2 at the first message of a fresh user. -/
theorem C2_amended_witness :
    ((handle_message initState 0 "hi" 0 (some "ok")).state.conversations 0).length
      ≤ MAX_TURNS ∧
    ((handle_message initState 0 "hi" 0 (some "ok")).state.conversations 0) <:+
      (initState.conversations 0 ++
        [Turn.mk Role.user "hi", Turn.mk Role.assistant "ok"]) :=
  C2_amended_history_bounded_after_success initState 0 "hi" 0 "ok"
    (by norm_num [initState, INACTIVITY_TIMEOUT])
    (by norm_num [handle_message, trimHistory, initState, admitCheck, updFn,
      INACTIVITY_TIMEOUT, REQUEST_LIMIT, MAX_TURNS])

/-- The rate limiter denies exactly when the window is still current
and the count has reached REQUEST_LIMIT. -/
theorem admitCheck_denied_iff (w : RateWindow) (now : ℚ) :
    (admitCheck w now).fst = false ↔
      (now - w.windowStart < 60 ∧ REQUEST_LIMIT ≤ w.count) := by
  unfold admitCheck
  split
  · next h => simpa using h
  · next h => simpa using h

/-- Counterexample to C3: the fourth message of user 0, at time 30, is
Denied, yet processing it changes the session state — lastActivity
moves from 2 to 30, because the activity update precedes the rate-limit
check in handle_message. -/
theorem C3_counterexample_denied_updates_lastActivity :
    (handle_message C3exState 0 "m4" 30 none).denied = true ∧
    C3exState.lastActivity 0 = 2 ∧
    (handle_message C3exState 0 "m4" 30 none).state.lastActivity 0 = 30 := by
  norm_num [C3exState, handle_message, trimHistory, initState, admitCheck, updFn,
    INACTIVITY_TIMEOUT, REQUEST_LIMIT]

/-- C3 amended: a Denied message appends nothing to the history, clears
nothing (given lastRequestTime ≤ lastActivity, which every reachable
state satisfies), and leaves the rate state untouched — but it does
update lastActivity to the arrival time, because handle_message writes
LAST_ACTIVITY before the rate-limit check. -/
theorem C3_amended_denied_keeps_history_updates_activity (st : BotState)
    (uid : Nat) (msg : String) (now : ℚ) (backend : Option String)
    (hlr : st.lastRequestTime uid ≤ st.lastActivity uid)
    (hden : (handle_message st uid msg now backend).denied = true) :
    (handle_message st uid msg now backend).state.conversations uid =
      st.conversations uid ∧
    (handle_message st uid msg now backend).state.userRequestCount uid =
      st.userRequestCount uid ∧
    (handle_message st uid msg now backend).state.lastRequestTime uid =
      st.lastRequestTime uid ∧
    (handle_message st uid msg now backend).state.lastActivity uid = now := by
  by_cases hf : (admitCheck (RateWindow.mk (st.lastRequestTime uid)
      (st.userRequestCount uid)) now).fst = false
  · have hlt : now - st.lastRequestTime uid < 60 :=
      ((admitCheck_denied_iff _ now).mp hf).1
    have hgap : now - st.lastActivity uid ≤ INACTIVITY_TIMEOUT := by
      have : now - st.lastActivity uid ≤ now - st.lastRequestTime uid := by
        linarith
      have h60 : (60 : ℚ) ≤ INACTIVITY_TIMEOUT := by
        norm_num [INACTIVITY_TIMEOUT]
      linarith
    have hg : decide (INACTIVITY_TIMEOUT < now - st.lastActivity uid) = false := by
      simp [not_lt.mpr hgap]
    unfold handle_message
    simp [hg, hf, updFn]
  · have ht : (admitCheck (RateWindow.mk (st.lastRequestTime uid)
        (st.userRequestCount uid)) now).fst = true := by
      simpa using hf
    exfalso
    cases backend <;> simp [handle_message, ht] at hden

/-- Witness for the amended C3 at the reachable state C3exState and the
denied fourth message. -/
theorem C3_amended_witness :
    (handle_message C3exState 0 "m4" 30 none).state.conversations 0 =
      C3exState.conversations 0 ∧
    (handle_message C3exState 0 "m4" 30 none).state.userRequestCount 0 =
      C3exState.userRequestCount 0 ∧
    (handle_message C3exState 0 "m4" 30 none).state.lastRequestTime 0 =
      C3exState.lastRequestTime 0 ∧
    (handle_message C3exState 0 "m4" 30 none).state.lastActivity 0 = 30 :=
  C3_amended_denied_keeps_history_updates_activity C3exState 0 "m4" 30 none
    (by norm_num [C3exState, handle_message, trimHistory, initState, admitCheck, updFn,
      INACTIVITY_TIMEOUT, REQUEST_LIMIT])
    (by norm_num [C3exState, handle_message, trimHistory, initState, admitCheck, updFn,
      INACTIVITY_TIMEOUT, REQUEST_LIMIT])

/-- Counterexample to C6: on a user whose CONVERSATIONS entry exists
but whose history is empty, reset does not return false with no state
change — it reports success and refreshes lastActivity, because the
code tests dictionary membership, not history emptiness. -/
theorem C6_counterexample_empty_history_still_resets :
    C6exState.conversations 0 = [] ∧
    C6exState.lastActivity 0 = 5 ∧
    (reset C6exState 0 50).2 = true ∧
    (reset C6exState 0 50).1.lastActivity 0 = 50 := by
  norm_num [C6exState, reset, handle_message, trimHistory, initState, admitCheck, updFn,
    INACTIVITY_TIMEOUT, REQUEST_LIMIT]

/-- C6 amended: manualReset returns false and performs no state change
exactly when the user has no CONVERSATIONS entry; for any user with an
entry — including one whose history is already empty — it clears the
history, sets lastActivity to the current time, and returns true. -/
theorem C6_amended_reset_tests_membership (st : BotState) (uid : Nat)
    (now : ℚ) :
    (st.conversationsMem uid = false → reset st uid now = (st, false)) ∧
    (st.conversationsMem uid = true →
      (reset st uid now).2 = true ∧
      (reset st uid now).1.conversations uid = [] ∧
      (reset st uid now).1.lastActivity uid = now) := by
  constructor
  · intro h
    simp [reset, h]
  · intro h
    simp [reset, h, updFn]

/-- Witness for the amended C6 at the reachable state C6exState. -/
theorem C6_amended_witness :
    (reset C6exState 0 50).2 = true ∧
    (reset C6exState 0 50).1.conversations 0 = [] ∧
    (reset C6exState 0 50).1.lastActivity 0 = 50 :=
  (C6_amended_reset_tests_membership C6exState 0 50).2
    (by norm_num [C6exState, reset, handle_message, trimHistory, initState, admitCheck,
      updFn, INACTIVITY_TIMEOUT, REQUEST_LIMIT])

/-- C4: after 11 consecutive successful request/reply pairs (22 turns
appended in total), the history of the user has length exactly 20 and
consists of the 10 most recent user/assistant pairs in their original
chronological order — the first pair has been dropped by the trim to
the last MAX_TURNS entries. -/
theorem C4_eleven_pairs_keep_last_ten (u a : Nat → String) :
    (runPairs u a 11).1.conversations 0 =
      [Turn.mk Role.user (u 1), Turn.mk Role.assistant (a 1),
       Turn.mk Role.user (u 2), Turn.mk Role.assistant (a 2),
       Turn.mk Role.user (u 3), Turn.mk Role.assistant (a 3),
       Turn.mk Role.user (u 4), Turn.mk Role.assistant (a 4),
       Turn.mk Role.user (u 5), Turn.mk Role.assistant (a 5),
       Turn.mk Role.user (u 6), Turn.mk Role.assistant (a 6),
       Turn.mk Role.user (u 7), Turn.mk Role.assistant (a 7),
       Turn.mk Role.user (u 8), Turn.mk Role.assistant (a 8),
       Turn.mk Role.user (u 9), Turn.mk Role.assistant (a 9),
       Turn.mk Role.user (u 10), Turn.mk Role.assistant (a 10)] := by
  norm_num [runPairs, handle_message, trimHistory, initState, admitCheck, updFn,
    INACTIVITY_TIMEOUT, REQUEST_LIMIT, MAX_TURNS]

/-- Replacing single-character occurrences by nothing leaves no
occurrence of that character behind. -/
theorem rbrace_not_mem_replaceAux (t : Char) (l : List Char) :
    t ∉ replaceAux t [] [] l := by
  induction l with
  | nil => simp [replaceAux]
  | cons c rest ih =>
    rw [replaceAux]
    split
    · next h => simpa using ih
    · next h =>
      have hc : c ≠ t := by
        intro hc
        exact h ⟨hc, by simp [List.isPrefixOf]⟩
      simp [ih, Ne.symm hc]

/-- The cleaned reply contains no closing-brace character at all. -/
theorem cleanResponse_no_rbrace (s : String) :
    '\x7d' ∉ (cleanResponse s).data := by
  have h : cleanResponse s =
      String.mk (replaceAux '\x7d' [] []
        (pyReplace s "\\boxed\x7b" "").data) := rfl
  rw [h]
  exact rbrace_not_mem_replaceAux _ _

/-- Counterexample to C8: for the backend reply consisting of the two
characters `a` and closing brace, the assistant turn recorded in the
history is the raw reply while the text shown to the user is the
cleaned single-character reply — stored and shown differ, because the
code appends CONVERSATIONS before cleaning. -/
theorem C8_counterexample_raw_stored_clean_shown :
    (handle_message initState 0 "q" 0 (some "a\x7d")).state.conversations 0 =
      [Turn.mk Role.user "q", Turn.mk Role.assistant "a\x7d"] ∧
    (handle_message initState 0 "q" 0 (some "a\x7d")).displayed = ["a"] ∧
    ("a\x7d" : String) ≠ "a" := by
  have hclean : cleanResponse "a\x7d" = "a" := by
    have h1 : cleanResponse "a\x7d" =
        String.mk (replaceAux '\x7d' [] []
          (String.mk (replaceAux '\\' "boxed\x7b".data [] "a\x7d".data)).data) := rfl
    rw [h1]
    simp [replaceAux, List.isPrefixOf]
  have hchunk : chunkText "a" = ["a"] := by
    rw [chunkText, show ("a").data = ['a'] from rfl, chunkChars]
    rw [List.take_of_length_le (by norm_num), List.drop_eq_nil_of_le (by norm_num)]
    rw [chunkChars]
  refine ⟨?_, ?_, by decide⟩
  · norm_num [handle_message, trimHistory, initState, admitCheck, updFn,
      INACTIVITY_TIMEOUT, REQUEST_LIMIT, MAX_TURNS]
  · calc (handle_message initState 0 "q" 0 (some "a\x7d")).displayed
        = chunkText (cleanResponse "a\x7d") := by
          norm_num [handle_message, initState, admitCheck, updFn,
            INACTIVITY_TIMEOUT, REQUEST_LIMIT]
      _ = ["a"] := by rw [hclean, hchunk]

/-- C8 amended: the formatting-artifact stripping is applied only
before display, not before recording — after every successful exchange
the history ends in the raw backend reply, while the chunks shown to
the user are those of the cleaned reply. -/
theorem C8_amended_raw_recorded_clean_displayed (st : BotState) (uid : Nat)
    (msg : String) (now : ℚ) (reply : String)
    (hok : (handle_message st uid msg now (some reply)).denied = false) :
    (∃ pre, (handle_message st uid msg now (some reply)).state.conversations uid =
      pre ++ [Turn.mk Role.assistant reply]) ∧
    (handle_message st uid msg now (some reply)).displayed =
      chunkText (cleanResponse reply) := by
  by_cases hadm : (admitCheck (RateWindow.mk (st.lastRequestTime uid)
      (st.userRequestCount uid)) now).fst = true
  · unfold handle_message
    simp only [hadm, Bool.true_eq_false, if_false, updFn, if_pos, if_true]
    exact ⟨trimHistory_last _ _, trivial⟩
  · exfalso
    have hf : (admitCheck (RateWindow.mk (st.lastRequestTime uid)
        (st.userRequestCount uid)) now).fst = false := by
      simpa using hadm
    rw [handle_message] at hok
    simp only [hf, if_pos, if_true] at hok
    simp at hok

/-- Witness for the amended C8 at the first message of a fresh user
with the reply of the counterexample. -/
theorem C8_amended_witness :
    (∃ pre, (handle_message initState 0 "q2" 0 (some "b\x7d")).state.conversations 0 =
      pre ++ [Turn.mk Role.assistant "b\x7d"]) ∧
    (handle_message initState 0 "q2" 0 (some "b\x7d")).displayed =
      chunkText (cleanResponse "b\x7d") :=
  C8_amended_raw_recorded_clean_displayed initState 0 "q2" 0 "b\x7d"
    (by norm_num [handle_message, trimHistory, initState, admitCheck, updFn,
      INACTIVITY_TIMEOUT, REQUEST_LIMIT, MAX_TURNS])

/-- C10: for every backend reply of a processed message, the displayed
text is the chunking of the reply with every occurrence of the
backslash-boxed-open-brace marker removed and then every occurrence of
the closing-brace character removed (Python's two chained single-pass
replaces), and indeed no closing brace at all — part of a boxed
construct or not — survives cleaning, for any reply text. -/
theorem C10_displayed_strips_boxed_and_braces (st : BotState) (uid : Nat)
    (msg : String) (now : ℚ) (reply : String)
    (hok : (handle_message st uid msg now (some reply)).denied = false) :
    (handle_message st uid msg now (some reply)).displayed =
      chunkText (pyReplace (pyReplace reply "\\boxed\x7b" "") "\x7d" "") ∧
    ∀ s : String, '\x7d' ∉ (cleanResponse s).data := by
  refine ⟨?_, cleanResponse_no_rbrace⟩
  by_cases hadm : (admitCheck (RateWindow.mk (st.lastRequestTime uid)
      (st.userRequestCount uid)) now).fst = true
  · unfold handle_message
    simp only [hadm, Bool.true_eq_false, if_false, updFn, if_pos, if_true]
    rfl
  · exfalso
    have hf : (admitCheck (RateWindow.mk (st.lastRequestTime uid)
        (st.userRequestCount uid)) now).fst = false := by
      simpa using hadm
    rw [handle_message] at hok
    simp only [hf, if_pos, if_true] at hok
    simp at hok

/-- Witness for C10: the first message of a fresh user, with a reply
holding a stray closing brace. -/
theorem C10_witness :
    (handle_message initState 0 "q3" 0 (some "x\x7dy")).displayed =
      chunkText (pyReplace (pyReplace "x\x7dy" "\\boxed\x7b" "") "\x7d" "") :=
  (C10_displayed_strips_boxed_and_braces initState 0 "q3" 0 "x\x7dy"
    (by norm_num [handle_message, trimHistory, initState, admitCheck, updFn,
      INACTIVITY_TIMEOUT, REQUEST_LIMIT, MAX_TURNS])).1

end TarsBot
